import Mathlib

/-!
# Verification of the Dagger testing pipeline (`dagger_testing/main.py` and
`src/hello_world.py`)

Shallow embedding of the repository's pipeline code.  Dagger container values
are modelled as first-order description trees built by the same fluent calls
the source makes (`from_`, `with_mounted_cache`, `with_directory`,
`with_workdir`, `with_env_variable`, `with_exec`, `with_exposed_port`,
`with_service_binding`, `as_service`).  Awaiting `stdout()` on a container is
an interaction with the external container runtime; it is modelled by an
oracle `Exec : Container → Except String String` (captured stdout of the final
exec, or an error when a command exits nonzero), universally quantified in the
theorems.
-/

/-! ## Python string primitives

The source parses and renders plain strings (`versions.split(",")`,
`v.strip()`, `"\n".join(...)`).  These are modelled by structurally recursive
functions on the character lists so that every theorem can be evaluated by the
kernel on concrete inputs. -/

/-- Python `s.split(sep)` for a one-character separator, on the character
list: splits at every separator occurrence and keeps empty fields, so the
result always has (number of separators + 1) entries; `"".split(",") = [""]`. -/
def pySplitChars (sep : Char) : List Char → List (List Char)
  | [] => [[]]
  | c :: cs =>
    if c = sep then [] :: pySplitChars sep cs
    else
      match pySplitChars sep cs with
      | [] => [[c]]
      | f :: r => (c :: f) :: r

/-- Python `s.strip()` on the character list: drop whitespace from both ends. -/
def pyStripChars (cs : List Char) : List Char :=
  ((cs.dropWhile Char.isWhitespace).reverse.dropWhile Char.isWhitespace).reverse

/-- Python `s.split(sep)` for a one-character separator. -/
def pySplit (sep : Char) (s : String) : List String :=
  (pySplitChars sep s.data).map String.mk

/-- Python `s.strip()`. -/
def pyStrip (s : String) : String :=
  String.mk (pyStripChars s.data)

/-- Python `sep.join(parts)`. -/
def joinSep (sep : String) : List String → String
  | [] => ""
  | [s] => s
  | s :: rest => s ++ sep ++ joinSep sep rest

/-- Does `pat` occur as a contiguous sublist of the second argument? -/
def listInfix (pat : List Char) : List Char → Bool
  | [] => pat.isEmpty
  | c :: cs => pat.isPrefixOf (c :: cs) || listInfix pat cs

/-- `containsStr s pat`: `pat` occurs as a contiguous substring of `s`. -/
def containsStr (s pat : String) : Bool :=
  listInfix pat.data s.data

/-! ## Dagger value model -/

/-- An opaque source-tree snapshot (`dg.Directory`).  The pipeline never
inspects it; it is only mounted into containers. -/
structure Directory where
  id : Nat
deriving DecidableEq

/-- `dag.cache_volume(name)`: a persistent volume keyed by its name. -/
inductive CacheVolume where
  | named (n : String)
deriving DecidableEq

/-- A Dagger container description: the chain of fluent builder calls that
produced it.  `withServiceBinding` records the bound service's own container
description and entry arguments (a `dg.Service` is `as_service(args=...)`
applied to a container, see `Service`). -/
inductive Container where
  | from_ (image : String)
  | withMountedCache (c : Container) (path : String) (vol : CacheVolume)
  | withDirectory (c : Container) (path : String) (d : Directory)
  | withWorkdir (c : Container) (dir : String)
  | withEnvVariable (c : Container) (key val : String)
  | withExec (c : Container) (args : List String)
  | withExposedPort (c : Container) (port : Nat)
  | withServiceBinding (c : Container) (bindName : String) (svcBase : Container)
      (svcArgs : List String)
deriving DecidableEq

/-- `container.as_service(args=...)`: a lazy service description — the
underlying container plus the long-running entry command. -/
structure Service where
  base : Container
  args : List String
deriving DecidableEq

/-- `with_service_binding(alias, service)` taking a `Service` value, as the
source writes it. -/
def Container.withServiceBindingS (c : Container) (a : String) (s : Service) :
    Container :=
  c.withServiceBinding a s.base s.args

/-- The external container runtime: awaiting `.stdout()` on a container either
returns the captured stdout of its final exec or raises (nonzero exit,
transport failure, ...). -/
abbrev Exec : Type :=
  Container → Except String String

/-- The arguments of the outermost `with_exec` layer of a container, if the
container description ends in one.  Every awaited probe container in
`test_api_service` has this shape. -/
def lastExecArgs : Container → Option (List String)
  | .withExec _ args => some args
  | _ => none

/-- All cache mounts declared along a container's build chain (not recursing
into bound services). -/
def cacheMounts : Container → List (String × CacheVolume)
  | .from_ _ => []
  | .withMountedCache c p v => cacheMounts c ++ [(p, v)]
  | .withDirectory c _ _ => cacheMounts c
  | .withWorkdir c _ => cacheMounts c
  | .withEnvVariable c _ _ => cacheMounts c
  | .withExec c _ => cacheMounts c
  | .withExposedPort c _ => cacheMounts c
  | .withServiceBinding c _ _ _ => cacheMounts c

/-- All ports declared by `with_exposed_port` along a container's build chain. -/
def exposedPorts : Container → List Nat
  | .from_ _ => []
  | .withMountedCache c _ _ => exposedPorts c
  | .withDirectory c _ _ => exposedPorts c
  | .withWorkdir c _ => exposedPorts c
  | .withEnvVariable c _ _ => exposedPorts c
  | .withExec c _ => exposedPorts c
  | .withExposedPort c p => exposedPorts c ++ [p]
  | .withServiceBinding c _ _ _ => exposedPorts c

/-- All `with_exec` argument vectors along a container's build chain, in
execution order. -/
def execsOf : Container → List (List String)
  | .from_ _ => []
  | .withMountedCache c _ _ => execsOf c
  | .withDirectory c _ _ => execsOf c
  | .withWorkdir c _ => execsOf c
  | .withEnvVariable c _ _ => execsOf c
  | .withExec c args => execsOf c ++ [args]
  | .withExposedPort c _ => execsOf c
  | .withServiceBinding c _ _ _ => execsOf c

/-! ## The module's functions (`dagger_testing/main.py`) -/

/-- `test_container` (main.py lines 26–47): base container with uv, the shared
`"uv"` cache volume mounted at `/root/.cache/uv`, the source tree at `/app`
(also the workdir), and `UV_SYSTEM_PYTHON=1`. -/
def test_container (source : Directory) (python_version : String) : Container :=
  let uv_cache := CacheVolume.named "uv"
  (((((Container.from_
            ("ghcr.io/astral-sh/uv:python" ++ python_version ++ "-bookworm-slim")).withMountedCache
          "/root/.cache/uv" uv_cache).withDirectory
        "/app" source).withWorkdir
      "/app").withEnvVariable
    "UV_SYSTEM_PYTHON" "1")

/-- The container whose stdout `unit_test` awaits (main.py lines 63–68):
editable install with the test extra, then pytest on `tests/unit`. -/
def unitTestPipeline (source : Directory) (python_version : String) : Container :=
  ((test_container source python_version).withExec
      ["uv", "pip", "install", "-e", ".[test]"]).withExec
    ["pytest", "tests/unit", "-v", "--tb=short"]

/-- `unit_test` (main.py lines 51–68). -/
def unit_test (ex : Exec) (source : Directory) (python_version : String) :
    Except String String :=
  ex (unitTestPipeline source python_version)

/-- `run_test` (main.py lines 104–122): same pipeline with a caller-chosen
pytest path. -/
def run_test (ex : Exec) (source : Directory) (path : String)
    (python_version : String) : Except String String :=
  ex (((test_container source python_version).withExec
        ["uv", "pip", "install", "-e", ".[test]"]).withExec
      ["pytest", path, "-v", "--tb=short"])

/-- `str(e)` for the exception every matrix branch actually raises: the branch
body (main.py line 88) evaluates `self.unit_tests(source, version)`, but the
object type defines no attribute `unit_tests` — the unit-test method (line 51)
is named `unit_test` — so Python raises `AttributeError` during attribute
lookup, before any container is built or executed. -/
def unitTestsAttrError : String :=
  "\x27DaggerTestingExample\x27 object has no attribute \x27unit_tests\x27"

/-- The inner coroutine `test_version` (main.py lines 85–91).  Its body first
resolves `self.unit_tests`; that lookup raises `AttributeError` (see
`unitTestsAttrError`), the `except Exception` clause catches it, and the
branch returns the FAILED entry with `str(e)`.  The exec oracle and the source
tree are therefore never consulted by a branch. -/
def test_version (ex : Exec) (source : Directory) (version : String) :
    String × String :=
  (version, "Python " ++ version ++ ": FAILED\n" ++ unitTestsAttrError)

/-- `version_list` (main.py line 83): `[v.strip() for v in versions.split(",")]`. -/
def matrixVersionList (versions : String) : List String :=
  (pySplit ',' versions).map pyStrip

/-- `results` (main.py line 94): one `test_version` outcome per parsed
version, in input order (`asyncio.gather` returns results in the order of its
argument list). -/
def matrixResults (ex : Exec) (source : Directory) (versions : String) :
    List (String × String) :=
  (matrixVersionList versions).map (test_version ex source)

/-- `"=" * 50` (main.py line 99). -/
def eqBanner : String :=
  String.mk (List.replicate 50 '=')

/-- `output_lines` (main.py lines 97–99): header banner, blank line, then per
branch its result text, the `=` banner and a blank line. -/
def matrixOutputLines (ex : Exec) (source : Directory) (versions : String) :
    List String :=
  ["=== MULTI-VERSION TEST RESULTS ===", ""] ++
    (matrixResults ex source versions).flatMap (fun r => [r.2, eqBanner, ""])

/-- `unit_test_matrix` (main.py lines 71–101). -/
def unit_test_matrix (ex : Exec) (source : Directory) (versions : String) :
    String :=
  joinSep "\n" (matrixOutputLines ex source versions)

/-! ## Scheduling model for `asyncio.gather`

The event loop may complete the matrix branches in any order.  A completion
sequence is a list of input indices; each completion delivers the pair
(input index, branch result).  `gather` buffers the completed pairs and reads
the result slots back in input order. -/

/-- The completed (input index, branch result) pairs, in completion order. -/
def gatherCompletions {α : Type} (task : Nat → α) (order : List Nat) :
    List (Nat × α) :=
  order.map (fun i => (i, task i))

/-- The result slots, read back in input order: slot `i` holds the first
completion delivered for input index `i`. -/
def gatherSlots {α : Type} (n : Nat) (task : Nat → α) (order : List Nat) :
    List (Option α) :=
  (List.range n).map (fun i => (gatherCompletions task order).lookup i)

/-- Join: `gather` only returns once every slot is filled. -/
def collectAll {α : Type} : List (Option α) → Option (List α)
  | [] => some []
  | none :: _ => none
  | some a :: rest => (collectAll rest).map (fun l => a :: l)

/-- `unit_test_matrix` with the branch completion order made explicit: the
branches complete in the order given by `order`, gather buffers the results
into input-indexed slots, and the report is rendered from the slots in input
order.  Returns `none` only if some input slot was never filled (impossible
for a genuine completion order). -/
def unit_test_matrix_sched (ex : Exec) (source : Directory) (versions : String)
    (order : List Nat) : Option String :=
  (collectAll
      (gatherSlots (matrixVersionList versions).length
        (fun i => test_version ex source ((matrixVersionList versions).getD i ""))
        order)).map
    (fun results =>
      joinSep "\n"
        (["=== MULTI-VERSION TEST RESULTS ===", ""] ++
          results.flatMap (fun r => [r.2, eqBanner, ""])))

/-! ## Service functions -/

/-- `api_service` (main.py lines 126–152): base environment, non-test install
(`uv pip install -e .`), one exposed port 8000, entry command
`python -m hello_world` as a lazy service. -/
def api_service (source : Directory) (python_version : String) : Service :=
  Service.mk
    (((test_container source python_version).withExec
          ["uv", "pip", "install", "-e", "."]).withExposedPort
      8000)
    ["python", "-m", "hello_world"]

/-- `test_client` (main.py lines 180–185): alpine with curl and jq, the API
service bound under the alias `api`. -/
def probeClient (source : Directory) (python_version : String) : Container :=
  ((Container.from_ "alpine:latest").withExec
        ["apk", "add", "--no-cache", "curl", "jq"]).withServiceBindingS
    "api" (api_service source python_version)

/-- The container awaited for the root probe (main.py lines 188–190). -/
def rootProbeContainer (source : Directory) (python_version : String) :
    Container :=
  (probeClient source python_version).withExec
    ["curl", "-s", "http://api:8000/"]

/-- The container awaited for the health probe (main.py lines 193–195). -/
def healthProbeContainer (source : Directory) (python_version : String) :
    Container :=
  (probeClient source python_version).withExec
    ["curl", "-s", "http://api:8000/health"]

/-- The `sh -c` command string the source interpolates a captured response
into (main.py lines 198–204). -/
def jqCommand (response : String) : String :=
  "echo \x27" ++ response ++ "\x27 | jq ."

/-- `result_lines` joined (main.py lines 207–219), as a function of the two
pretty-printed responses. -/
def apiReport (root_pretty health_pretty : String) : String :=
  joinSep "\n"
    ["=== API SERVICE TEST RESULTS ===", "", "Root Endpoint (GET /):",
      root_pretty, "", "Health Endpoint (GET /health):", health_pretty, "",
      "All endpoints responded successfully!"]

/-- `test_api_service` (main.py lines 155–219): await the two curl probes,
pretty-print each captured body through `sh -c "echo '...' | jq ."`, and join
the report; any failing await propagates. -/
def test_api_service (ex : Exec) (source : Directory) (python_version : String) :
    Except String String := do
  let root_response ← ex (rootProbeContainer source python_version)
  let health_response ← ex (healthProbeContainer source python_version)
  let root_pretty ←
    ex ((probeClient source python_version).withExec
        ["sh", "-c", jqCommand root_response])
  let health_pretty ←
    ex ((probeClient source python_version).withExec
        ["sh", "-c", jqCommand health_response])
  pure (apiReport root_pretty health_pretty)

/-! ## HTTP-level execution model for the probe client -/

/-- An HTTP response delivered to the probe: status code and body text. -/
structure HttpResponse where
  status : Nat
  body : String
deriving DecidableEq

/-- `200 ≤ status < 300`. -/
def is2xx (status : Nat) : Bool :=
  200 ≤ status && status < 300

/-- Execution model for the probe client's commands, parameterized by the
HTTP world (`some` response per reachable URL, `none` for a connection
failure).  A `curl -s URL` exec prints the response body and exits 0 whenever
any HTTP response arrives, whatever its status code: curl treats HTTP-level
errors as success unless `--fail` is passed, and the source passes only `-s`.
It exits nonzero (the await raises) only on a transport failure.  The
`sh -c` pretty-printing exec succeeds and is modelled as echoing its command
text (no probe claim depends on jq's exact formatting). -/
def curlResult (resp : Option HttpResponse) (url : String) :
    Except String String :=
  match resp with
  | some r => Except.ok r.body
  | none => Except.error ("curl: (7) Failed to connect to " ++ url)

/-- The execution world induced by an HTTP world; see `curlResult` for the
`curl` exit-code model. -/
def curlWorld (world : String → Option HttpResponse) : Exec := fun c =>
  match lastExecArgs c with
  | some ["curl", "-s", url] => curlResult (world url) url
  | some ["sh", "-c", cmd] => Except.ok cmd
  | _ => Except.ok ""

/-- Body FastAPI serves for an undefined route. -/
def notFoundBody : String :=
  "\x7b\"detail\":\"Not Found\"\x7d"

/-- The body `GET /health` serves. -/
def healthyBody : String :=
  "\x7b\"status\":\"healthy\",\"service\":\"hello-world\"\x7d"

/-- A concrete HTTP world in which the root route answers 404 (service up but
the route broken) and `/health` answers 200. -/
def w404 : String → Option HttpResponse := fun url =>
  if url = "http://api:8000/" then some ⟨404, notFoundBody⟩
  else if url = "http://api:8000/health" then some ⟨200, healthyBody⟩
  else none

/-- Does an argument vector carry any curl timeout option
(`-m`/`--max-time`/`--connect-timeout`, separate or attached form)? -/
def hasTimeoutOption (args : List String) : Bool :=
  args.any (fun a =>
    "-m".data.isPrefixOf a.data || "--max-time".data.isPrefixOf a.data ||
      "--connect-timeout".data.isPrefixOf a.data)

/-! ## The managed service (`src/hello_world.py`) -/

/-- HTTP request methods. -/
inductive Method where
  | GET
  | POST
  | PUT
  | DELETE
  | PATCH
deriving DecidableEq

/-- One registered FastAPI route: method, path, and the JSON object (as a
key/value list) its handler returns. -/
structure Route where
  method : Method
  path : String
  body : List (String × String)
deriving DecidableEq

/-- The route table of `hello_world.py`: `@app.get("/")` returning
`{"message": "Hello, World!"}` (lines 11–14) and `@app.get("/health")`
returning `{"status": "healthy", "service": "hello-world"}` (lines 17–20). -/
def helloWorldRoutes : List Route :=
  [⟨Method.GET, "/", [("message", "Hello, World!")]⟩,
    ⟨Method.GET, "/health", [("status", "healthy"), ("service", "hello-world")]⟩]

/-- Status code and JSON object returned for a request. -/
structure AppResponse where
  status : Nat
  body : List (String × String)
deriving DecidableEq

/-- Request dispatch for the app: a route matching path and method answers 200
with its handler's object; a path registered only under another method answers
405; an unregistered path answers 404.  This dispatch rule is FastAPI's
routing behavior, asserted by the repository's own unit tests
(`tests/unit/test_hello_world.py`: 404 for `/nonexistent`, 405 for `POST /`). -/
def handleRequest (m : Method) (p : String) : AppResponse :=
  match helloWorldRoutes.find? (fun r => r.method == m && r.path == p) with
  | some r => ⟨200, r.body⟩
  | none =>
    if helloWorldRoutes.any (fun r => r.path == p) then
      ⟨405, [("detail", "Method Not Allowed")]⟩
    else ⟨404, [("detail", "Not Found")]⟩

/-! ## Command sequences over an environment (for determinism of the builder) -/

/-- Layer a command sequence onto an environment and capture the final
stdout: each `with_exec` builds on the container left by the previous one,
and the await consults the runtime once at the end. -/
def runSeq (ex : Exec) (c : Container) (cmds : List (List String)) :
    Except String String :=
  ex (cmds.foldl Container.withExec c)

/-! ## Concrete inputs for witnesses and counterexamples -/

/-- An arbitrary concrete source tree. -/
def d0 : Directory :=
  ⟨0⟩

/-- A world in which every await returns an empty success. -/
def exOk : Exec := fun _ => Except.ok ""

/-- A world in which every await reports a passing test run. -/
def exOkPass : Exec := fun _ => Except.ok "all tests passed"

/-- A world in which the 3.12 unit-test pipeline fails with a runtime error
and everything else succeeds. -/
def exBoom : Exec := fun c =>
  if c = unitTestPipeline d0 "3.12" then Except.error "RuntimeError: boom"
  else Except.ok ""

/-! ## Helper lemmas -/

/-- `joinSep` on a list of at least two strings. -/
theorem joinSep_cons₂ (sep a b : String) (t : List String) :
    joinSep sep (a :: b :: t) = a ++ sep ++ joinSep sep (b :: t) :=
  rfl

/-- The last element of a joined list is a suffix of the join. -/
theorem joinSep_last_suffix (sep x : String) :
    ∀ l : List String, x.data <:+ (joinSep sep (l ++ [x])).data := by
  intro l
  induction l with
  | nil => exact List.suffix_refl _
  | cons a t ih =>
    cases t with
    | nil =>
      show x.data <:+ (joinSep sep (a :: [x])).data
      rw [joinSep_cons₂]
      show x.data <:+ ((a ++ sep) ++ joinSep sep [x]).data
      rw [String.data_append]
      exact List.suffix_append _ _
    | cons b t2 =>
      show x.data <:+ (joinSep sep (a :: (b :: (t2 ++ [x])))).data
      rw [joinSep_cons₂]
      show x.data <:+ ((a ++ sep) ++ joinSep sep (b :: (t2 ++ [x]))).data
      rw [String.data_append]
      have ih2 : x.data <:+ (joinSep sep (b :: (t2 ++ [x]))).data := by
        simpa using ih
      obtain ⟨pre, hpre⟩ := ih2
      exact ⟨(a ++ sep).data ++ pre, by rw [List.append_assoc, hpre]⟩

/-- `pySplitChars` never returns the empty list. -/
theorem pySplitChars_ne_nil (sep : Char) (cs : List Char) :
    pySplitChars sep cs ≠ [] := by
  induction cs with
  | nil => simp [pySplitChars]
  | cons c cs ih =>
    simp only [pySplitChars]
    split
    · simp
    · split
      · simp
      · simp

/-- The parsed version list is never empty (Python `split` always returns at
least one field). -/
theorem matrixVersionList_length_pos (versions : String) :
    1 ≤ (matrixVersionList versions).length := by
  have h := pySplitChars_ne_nil ',' versions.data
  simp only [matrixVersionList, pySplit, List.length_map]
  exact Nat.succ_le_of_lt (List.length_pos.mpr h)

/-- A completion for input index `i` is found in the completion buffer
whenever `i` completed at some point. -/
theorem lookup_gatherCompletions {α : Type} (task : Nat → α) (order : List Nat)
    (i : Nat) (h : i ∈ order) :
    (gatherCompletions task order).lookup i = some (task i) := by
  induction order with
  | nil => cases h
  | cons a t ih =>
    simp only [gatherCompletions, List.map_cons, List.lookup]
    by_cases hia : i = a
    · subst hia
      simp
    · have hbeq : (i == a) = false := beq_eq_false_iff_ne.mpr hia
      rw [hbeq]
      exact ih (by
        rcases List.mem_cons.mp h with h1 | h2
        · exact absurd h1 hia
        · exact h2)

/-- If every input index completes, every slot is filled with its own
branch's result. -/
theorem gatherSlots_complete {α : Type} (n : Nat) (task : Nat → α)
    (order : List Nat) (h : ∀ i, i < n → i ∈ order) :
    gatherSlots n task order = (List.range n).map (fun i => some (task i)) := by
  unfold gatherSlots
  apply List.map_congr_left
  intro i hi
  exact lookup_gatherCompletions task order i (h i (List.mem_range.mp hi))

/-- Joining a fully-filled slot list succeeds with the slot values. -/
theorem collectAll_map_some {α : Type} (l : List α) :
    collectAll (l.map some) = some l := by
  induction l with
  | nil => rfl
  | cons a t ih => simp [collectAll, ih]

/-- Reading a list back through positional `getD` is the identity (mapped). -/
theorem range_map_getD {α β : Type} (l : List α) (d : α) (f : α → β) :
    (List.range l.length).map (fun i => f (l.getD i d)) = l.map f := by
  apply List.ext_getElem
  · simp
  · intro i h1 h2
    simp only [List.getElem_map, List.getElem_range]
    rw [List.getD_eq_getElem l d (by simpa using h2)]

/-! ## Claim theorems -/

/-- C10: for every source tree and runtime version, `unit_test` is equivalent
to `run_test` at path `"tests/unit"`: both build the same environment, layer
the same install and pytest commands, and await the same captured output, so
under every execution world they return the same result. -/
theorem c10_unit_test_refines_run_test (ex : Exec) (source : Directory)
    (python_version : String) :
    unit_test ex source python_version =
      run_test ex source "tests/unit" python_version :=
  rfl

/-- C8: the Environment Builder is deterministic — two calls of
`test_container` with identical source tree and version yield equal
environment values, referencing the single name-keyed `"uv"` cache volume, so
layering any command sequence on both and capturing output yields identical
results under every execution world. -/
theorem c8_test_container_deterministic (source : Directory)
    (python_version : String) (ex : Exec) (cmds : List (List String))
    (e1 e2 : Container) (h1 : e1 = test_container source python_version)
    (h2 : e2 = test_container source python_version) :
    e1 = e2 ∧
      cacheMounts e1 = [("/root/.cache/uv", CacheVolume.named "uv")] ∧
      runSeq ex e1 cmds = runSeq ex e2 cmds := by
  subst h1
  subst h2
  exact ⟨rfl, rfl, rfl⟩

/-- Witness for C8 at a concrete source tree, version, world and command
sequence. -/
theorem c8_test_container_deterministic_witness :
    test_container d0 "3.12" = test_container d0 "3.12" ∧
      cacheMounts (test_container d0 "3.12") =
        [("/root/.cache/uv", CacheVolume.named "uv")] ∧
      runSeq exOk (test_container d0 "3.12") [["pytest"]] =
        runSeq exOk (test_container d0 "3.12") [["pytest"]] :=
  c8_test_container_deterministic d0 "3.12" exOk [["pytest"]]
    (test_container d0 "3.12") (test_container d0 "3.12") rfl rfl

/-- C9: `api_service` builds its base through the Environment Builder, layers
the non-test install `uv pip install -e .` (no argument mentions the test
extra), declares exactly the one exposed port 8000, and sets
`python -m hello_world` as the service's entry command. -/
theorem c9_api_service_structure (source : Directory) (python_version : String) :
    api_service source python_version =
      Service.mk
        (((test_container source python_version).withExec
              ["uv", "pip", "install", "-e", "."]).withExposedPort 8000)
        ["python", "-m", "hello_world"] ∧
      exposedPorts (api_service source python_version).base = [8000] ∧
      execsOf (api_service source python_version).base =
        [["uv", "pip", "install", "-e", "."]] ∧
      (execsOf (api_service source python_version).base).all
          (fun args => args.all (fun a => a != ".[test]")) = true ∧
      (api_service source python_version).args = ["python", "-m", "hello_world"] :=
  ⟨rfl, rfl, rfl, rfl, rfl⟩

/-- C7 counterexample: at a concrete source tree and version, the two probe
commands `test_api_service` awaits are exactly `curl -s <url>`; neither
argument vector carries any timeout option (`-m`, `--max-time` or
`--connect-timeout`, separate or attached), contradicting the claimed fixed
1-second per-request timeout. -/
theorem c7_no_timeout_flag :
    lastExecArgs (rootProbeContainer d0 "3.12") =
        some ["curl", "-s", "http://api:8000/"] ∧
      hasTimeoutOption ["curl", "-s", "http://api:8000/"] = false ∧
      lastExecArgs (healthProbeContainer d0 "3.12") =
        some ["curl", "-s", "http://api:8000/health"] ∧
      hasTimeoutOption ["curl", "-s", "http://api:8000/health"] = false := by
  exact ⟨rfl, by decide, rfl, by decide⟩

/-- C7 amended: for every source tree and version, the probe commands issued
by `test_api_service` are exactly `curl -s <url>` with no timeout option of
any form — blocking on a dead service is bounded only by curl's defaults. -/
theorem c7_probe_args_no_timeout (source : Directory) (python_version : String) :
    lastExecArgs (rootProbeContainer source python_version) =
        some ["curl", "-s", "http://api:8000/"] ∧
      lastExecArgs (healthProbeContainer source python_version) =
        some ["curl", "-s", "http://api:8000/health"] ∧
      hasTimeoutOption ["curl", "-s", "http://api:8000/"] = false ∧
      hasTimeoutOption ["curl", "-s", "http://api:8000/health"] = false := by
  exact ⟨rfl, rfl, by decide, by decide⟩

/-- C6: the managed service's HTTP contract — `GET /` answers 200 with
exactly `{"message": "Hello, World!"}`, `GET /health` answers 200 with
exactly `{"status": "healthy", "service": "hello-world"}`, any other GET path
answers 404, and a non-GET request to `/` answers 405. -/
theorem c6_http_contract (p : String) (m : Method) (hp1 : p ≠ "/")
    (hp2 : p ≠ "/health") (hm : m ≠ Method.GET) :
    handleRequest Method.GET "/" = ⟨200, [("message", "Hello, World!")]⟩ ∧
      handleRequest Method.GET "/health" =
        ⟨200, [("status", "healthy"), ("service", "hello-world")]⟩ ∧
      (handleRequest Method.GET p).status = 404 ∧
      (handleRequest m "/").status = 405 := by
  refine ⟨rfl, rfl, ?_, ?_⟩
  · have h1 : (("/" : String) == p) = false :=
      beq_eq_false_iff_ne.mpr (Ne.symm hp1)
    have h2 : (("/health" : String) == p) = false :=
      beq_eq_false_iff_ne.mpr (Ne.symm hp2)
    simp [handleRequest, helloWorldRoutes, List.find?, List.any, h1, h2]
  · have h3 : (Method.GET == m) = false :=
      beq_eq_false_iff_ne.mpr (Ne.symm hm)
    simp [handleRequest, helloWorldRoutes, List.find?, List.any, h3]

/-- Witness for C6 at the inputs the repository's own tests use:
`GET /nonexistent` and `POST /`. -/
theorem c6_http_contract_witness :
    (handleRequest Method.GET "/nonexistent").status = 404 ∧
      (handleRequest Method.POST "/").status = 405 := by
  have h := c6_http_contract "/nonexistent" Method.POST (by decide) (by decide)
    (by decide)
  exact ⟨h.2.2.1, h.2.2.2⟩

set_option maxRecDepth 4000 in
/-- C1 (code evaluated at the failing situation): in a world where the 3.12
unit-test pipeline would fail with `RuntimeError: boom`, the matrix call still
returns a report normally and renders a labeled `Python 3.12: FAILED` block —
but the block carries the `AttributeError` text from the misspelled
`self.unit_tests` lookup, never the test execution's own error text, because
the branch raises before ever invoking the unit-test pipeline. -/
theorem c1_branch_failure_text (ex : Exec)
    (h : ex (unitTestPipeline d0 "3.12") = Except.error "RuntimeError: boom") :
    unit_test_matrix ex d0 "3.12" =
        joinSep "\n"
          ["=== MULTI-VERSION TEST RESULTS ===", "",
            "Python 3.12: FAILED\n" ++ unitTestsAttrError, eqBanner, ""] ∧
      containsStr (unit_test_matrix ex d0 "3.12") "boom" = false ∧
      containsStr (unit_test_matrix ex d0 "3.12") unitTestsAttrError = true := by
  exact ⟨rfl, rfl, rfl⟩

/-- Witness for C1 in the concrete world `exBoom`. -/
theorem c1_branch_failure_text_witness :
    containsStr (unit_test_matrix exBoom d0 "3.12") "boom" = false :=
  (c1_branch_failure_text exBoom (by simp [exBoom])).2.1

set_option maxRecDepth 8000 in
/-- C2 (code evaluated at the failing situation): in every world where all
three unit-test pipelines for "3.10,3.11,3.12" succeed, the report still
renders three FAILED blocks — the `AttributeError` from the misspelled
`self.unit_tests` — and contains no PASSED block at all. -/
theorem c2_all_pass_reports_failed (ex : Exec)
    (h : ∀ v ∈ matrixVersionList "3.10,3.11,3.12",
        ex (unitTestPipeline d0 v) = Except.ok "all tests passed") :
    unit_test_matrix ex d0 "3.10,3.11,3.12" =
        joinSep "\n"
          ["=== MULTI-VERSION TEST RESULTS ===", "",
            "Python 3.10: FAILED\n" ++ unitTestsAttrError, eqBanner, "",
            "Python 3.11: FAILED\n" ++ unitTestsAttrError, eqBanner, "",
            "Python 3.12: FAILED\n" ++ unitTestsAttrError, eqBanner, ""] ∧
      containsStr (unit_test_matrix ex d0 "3.10,3.11,3.12") "PASSED" = false := by
  exact ⟨rfl, rfl⟩

/-- Witness for C2 in the concrete world `exOkPass`. -/
theorem c2_all_pass_reports_failed_witness :
    containsStr (unit_test_matrix exOkPass d0 "3.10,3.11,3.12") "PASSED" =
      false :=
  (c2_all_pass_reports_failed exOkPass (fun v hv => rfl)).2

/-- C3: the matrix report always carries exactly one labeled per-version block
per parsed version, in input order, and the scheduled run — whatever
permutation of the branch indices the event loop completes — renders exactly
the canonical input-ordered report. -/
theorem c3_matrix_order (ex : Exec) (source : Directory) (versions : String)
    (order : List Nat)
    (h : order.Perm (List.range (matrixVersionList versions).length)) :
    1 ≤ (matrixVersionList versions).length ∧
      (matrixResults ex source versions).length =
        (matrixVersionList versions).length ∧
      (∀ i, i < (matrixVersionList versions).length →
        (matrixResults ex source versions).getD i ("", "") =
          ((matrixVersionList versions).getD i "",
            "Python " ++ (matrixVersionList versions).getD i "" ++
              ": FAILED\n" ++ unitTestsAttrError)) ∧
      unit_test_matrix_sched ex source versions order =
        some (unit_test_matrix ex source versions) := by
  refine ⟨matrixVersionList_length_pos versions, by
    simp [matrixResults], ?_, ?_⟩
  · intro i hi
    have hlen : i < (matrixResults ex source versions).length := by
      simpa [matrixResults] using hi
    rw [List.getD_eq_getElem _ _ hlen, List.getD_eq_getElem _ _ hi]
    simp [matrixResults, test_version]
  · have hmem : ∀ i, i < (matrixVersionList versions).length → i ∈ order := by
      intro i hi
      exact h.mem_iff.mpr (List.mem_range.mpr hi)
    unfold unit_test_matrix_sched
    rw [gatherSlots_complete _ _ _ hmem]
    have hmap :
        (List.range (matrixVersionList versions).length).map
            (fun i =>
              some (test_version ex source ((matrixVersionList versions).getD i ""))) =
          ((List.range (matrixVersionList versions).length).map
              (fun i =>
                test_version ex source ((matrixVersionList versions).getD i ""))).map
            some := by
      rw [List.map_map]
      rfl
    rw [hmap, collectAll_map_some,
      range_map_getD (matrixVersionList versions) "" (test_version ex source)]
    rfl

/-- Witness for C3: two versions completing in reversed order still render the
canonical input-ordered report. -/
theorem c3_matrix_order_witness :
    unit_test_matrix_sched exOk d0 "3.11,3.10" [1, 0] =
      some (unit_test_matrix exOk d0 "3.11,3.10") :=
  (c3_matrix_order exOk d0 "3.11,3.10" [1, 0] (by decide)).2.2.2

/-- C4 counterexample: the parse of `"3.10,,3.12"` keeps the empty entry — it
is not rejected — and the matrix launches three branches, the second of which
is the labeled block for the empty version string; likewise `""` parses to one
empty entry rather than being rejected. -/
theorem c4_empty_entry_launched :
    matrixVersionList "3.10,,3.12" = ["3.10", "", "3.12"] ∧
      "" ∈ matrixVersionList "3.10,,3.12" ∧
      (matrixResults exOk d0 "3.10,,3.12").length = 3 ∧
      (matrixResults exOk d0 "3.10,,3.12").getD 1 ("", "") =
        ("", "Python : FAILED\n" ++ unitTestsAttrError) ∧
      matrixVersionList "" = [""] := by
  exact ⟨by decide, by decide, rfl, rfl, by decide⟩

/-- C4 amended: the versions parameter is parsed as the comma-split,
whitespace-stripped entry list with empty entries kept, and the matrix
launches exactly one branch per entry — including empty ones — each branch
keyed by its own entry. -/
theorem c4_parse_no_rejection (ex : Exec) (source : Directory)
    (versions : String) :
    matrixVersionList versions = (pySplit ',' versions).map pyStrip ∧
      (matrixResults ex source versions).length =
        (matrixVersionList versions).length ∧
      ∀ i, i < (matrixVersionList versions).length →
        ((matrixResults ex source versions).getD i ("", "")).1 =
          (matrixVersionList versions).getD i "" := by
  refine ⟨rfl, by simp [matrixResults], ?_⟩
  intro i hi
  have hlen : i < (matrixResults ex source versions).length := by
    simpa [matrixResults] using hi
  rw [List.getD_eq_getElem _ _ hlen, List.getD_eq_getElem _ _ hi]
  simp [matrixResults, test_version]

/-- Witness for C4 amended at the input with an empty entry. -/
theorem c4_parse_no_rejection_witness :
    ((matrixResults exOk d0 "3.10,,3.12").getD 1 ("", "")).1 =
      (matrixVersionList "3.10,,3.12").getD 1 "" :=
  (c4_parse_no_rejection exOk d0 "3.10,,3.12").2.2 1 (by decide)

/-! ## C5: probe failure semantics -/

/-- `Except` do-bind on a success. -/
theorem exceptBind_ok {ε α β : Type} (a : α) (f : α → Except ε β) :
    ((Except.ok a : Except ε α) >>= f) = f a :=
  rfl

/-- `Except` do-bind on an error. -/
theorem exceptBind_error {ε α β : Type} (e : ε) (f : α → Except ε β) :
    ((Except.error e : Except ε α) >>= f) = (Except.error e : Except ε β) :=
  rfl

/-- The root probe under `curlWorld` is curl against the root URL. -/
theorem curlWorld_root (world : String → Option HttpResponse)
    (source : Directory) (python_version : String) :
    curlWorld world (rootProbeContainer source python_version) =
      curlResult (world "http://api:8000/") "http://api:8000/" :=
  rfl

/-- The health probe under `curlWorld` is curl against the health URL. -/
theorem curlWorld_health (world : String → Option HttpResponse)
    (source : Directory) (python_version : String) :
    curlWorld world (healthProbeContainer source python_version) =
      curlResult (world "http://api:8000/health") "http://api:8000/health" :=
  rfl

/-- The jq pretty-printing step under `curlWorld` echoes its command text. -/
theorem curlWorld_sh (world : String → Option HttpResponse)
    (source : Directory) (python_version : String) (cmd : String) :
    curlWorld world
        ((probeClient source python_version).withExec ["sh", "-c", cmd]) =
      Except.ok cmd :=
  rfl

/-- Full evaluation of `test_api_service` under `curlWorld`: the call fails
exactly on a transport failure of one of the two probes; when both probes
receive any HTTP response at all — whatever the status codes — it returns the
report built from the two jq command texts. -/
theorem test_api_service_eval (world : String → Option HttpResponse)
    (source : Directory) (python_version : String) :
    test_api_service (curlWorld world) source python_version =
      match world "http://api:8000/", world "http://api:8000/health" with
      | none, _ =>
        Except.error ("curl: (7) Failed to connect to http://api:8000/")
      | some _, none =>
        Except.error ("curl: (7) Failed to connect to http://api:8000/health")
      | some r1, some r2 =>
        Except.ok (apiReport (jqCommand r1.body) (jqCommand r2.body)) := by
  unfold test_api_service
  rw [curlWorld_root, curlWorld_health]
  cases hr : world "http://api:8000/" with
  | none => rfl
  | some r1 =>
    cases hh : world "http://api:8000/health" with
    | none => rfl
    | some r2 => rfl

set_option maxRecDepth 8000 in
/-- C5 counterexample: in the concrete world `w404` the root probe receives a
non-2xx response (status 404), yet `test_api_service` does not fail — it
returns the full report, success footer included, because `curl -s` exits 0
on any received HTTP response and the function never inspects a status. -/
theorem c5_non2xx_reports_success :
    w404 "http://api:8000/" = some ⟨404, notFoundBody⟩ ∧
      is2xx 404 = false ∧
      test_api_service (curlWorld w404) d0 "3.12" =
        Except.ok (apiReport (jqCommand notFoundBody) (jqCommand healthyBody)) ∧
      containsStr (apiReport (jqCommand notFoundBody) (jqCommand healthyBody))
          "All endpoints responded successfully!" = true := by
  refine ⟨?_, rfl, ?_, ?_⟩
  · rfl
  · rw [test_api_service_eval]
    rfl
  · rfl

/-- C5 amended: under the curl execution model, `test_api_service` fails (and
returns no report) exactly when one of the two probe requests suffers a
transport-level connection failure; an HTTP response with a non-2xx status
does not fail the call, and every returned report ends with the success
footer regardless of the statuses received. -/
theorem c5_probe_failure_semantics (world : String → Option HttpResponse)
    (source : Directory) (python_version : String) :
    ((∃ e, test_api_service (curlWorld world) source python_version =
          Except.error e) ↔
        (world "http://api:8000/" = none ∨
          world "http://api:8000/health" = none)) ∧
      ∀ rep, test_api_service (curlWorld world) source python_version =
          Except.ok rep →
        "All endpoints responded successfully!".data <:+ rep.data := by
  rw [test_api_service_eval]
  cases hr : world "http://api:8000/" with
  | none =>
    refine ⟨⟨fun _ => Or.inl rfl, fun _ => ⟨_, rfl⟩⟩, ?_⟩
    intro rep hrep
    cases hrep
  | some r1 =>
    cases hh : world "http://api:8000/health" with
    | none =>
      refine ⟨⟨fun _ => Or.inr rfl, fun _ => ⟨_, rfl⟩⟩, ?_⟩
      intro rep hrep
      cases hrep
    | some r2 =>
      constructor
      · constructor
        · intro ⟨e, he⟩
          cases he
        · intro h
          rcases h with h1 | h2
          · exact absurd h1 (by simp)
          · exact absurd h2 (by simp)
      · intro rep hrep
        have hrep2 : apiReport (jqCommand r1.body) (jqCommand r2.body) = rep :=
          by injection hrep
        rw [← hrep2]
        show "All endpoints responded successfully!".data <:+
          (joinSep "\n"
              (["=== API SERVICE TEST RESULTS ===", "", "Root Endpoint (GET /):",
                  jqCommand r1.body, "", "Health Endpoint (GET /health):",
                  jqCommand r2.body, ""] ++
                ["All endpoints responded successfully!"])).data
        exact joinSep_last_suffix "\n" _ _

/-- Witness for C5 amended: at the concrete 404 world the call returns a
report carrying the success footer. -/
theorem c5_probe_failure_semantics_witness :
    "All endpoints responded successfully!".data <:+
      (apiReport (jqCommand notFoundBody) (jqCommand healthyBody)).data :=
  (c5_probe_failure_semantics w404 d0 "3.12").2
    (apiReport (jqCommand notFoundBody) (jqCommand healthyBody))
    (by rw [test_api_service_eval]; rfl)
